import Mathlib

/-!
Verification development for the Online-Mechanic-AI serverless handler
(`backend/lambda_function.py` and `backend/utils/s3_helper.py`).

The Python code is shallowly embedded: exceptions become an explicit
error type threaded through `Except`, dynamic (JSON-shaped) values become
an inductive `Json`, and the two external collaborators (the object store
and the model endpoint) become explicit behaviour parameters so that the
handler itself stays a pure function.  Side effects (store writes, model
calls) are recorded in an explicit trace.
-/

set_option maxRecDepth 4096

namespace OnlineMechanic

/-- Kinds of Python exceptions that can flow through the pipeline.
`clientError` models `botocore.exceptions.ClientError`, which subclasses
`Exception` directly and is NOT in the `BotoCoreError` family; the
handler boundary `except (ValueError, RuntimeError, BotoCoreError)`
therefore does not catch it. -/
inductive PyErr where
  | valueError (msg : String)
  | runtimeError (msg : String)
  | botoCoreError (msg : String)
  | clientError (msg : String)
  | attributeError (msg : String)
  | typeError (msg : String)
deriving DecidableEq, Repr

/-- The exception tuple of the handler boundary:
`except (ValueError, RuntimeError, botocore.exceptions.BotoCoreError)`.
`json.JSONDecodeError` is a `ValueError` subclass and is folded into
`valueError`. -/
def PyErr.caught : PyErr → Bool
  | .valueError _ => true
  | .runtimeError _ => true
  | .botoCoreError _ => true
  | .clientError _ => false
  | .attributeError _ => false
  | .typeError _ => false

/-- `str(exc)`: the message carried by the exception. -/
def PyErr.msg : PyErr → String
  | .valueError m => m
  | .runtimeError m => m
  | .botoCoreError m => m
  | .clientError m => m
  | .attributeError m => m
  | .typeError m => m

/-- Python values produced by `json.loads` (JSON `null` is Python `None`).
Numbers keep their source lexeme so that no floating point arithmetic is
modelled. -/
inductive Json where
  | null
  | bool (b : Bool)
  | num (lexeme : String)
  | str (s : String)
  | arr (xs : List Json)
  | obj (fields : List (String × Json))

/-- `type(x).__name__` for the embedded values. A numeric lexeme with a
fraction or exponent is a Python `float`, otherwise an `int`. -/
def Json.pyTypeName : Json → String
  | .null => "NoneType"
  | .bool _ => "bool"
  | .num lex =>
      if lex.data.any (fun c => c = '.' || c = 'e' || c = 'E' || c = 'N' || c = 'I')
      then "float" else "int"
  | .str _ => "str"
  | .arr _ => "list"
  | .obj _ => "dict"

/-- Truthiness of a numeric lexeme: zero iff the mantissa has no nonzero
digit (`0`, `-0.00`, `0e5` are falsy); the non-finite lexemes `NaN` and
`Infinity` are truthy. -/
def numTruthy (lex : String) : Bool :=
  (lex.data.takeWhile (fun c => c ≠ 'e' ∧ c ≠ 'E')).any
    (fun c => ('1' ≤ c ∧ c ≤ '9') ∨ c = 'N' ∨ c = 'I')

/-- Python truthiness of an embedded value. -/
def Json.truthy : Json → Bool
  | .null => false
  | .bool b => b
  | .num lex => numTruthy lex
  | .str s => s ≠ ""
  | .arr xs => ¬ xs.isEmpty
  | .obj fs => ¬ fs.isEmpty

/-- `d[k] = v` on an association list keeping Python dict semantics:
first-insertion position, last value wins. Keys stay unique. -/
def insertKV (fields : List (String × Json)) (k : String) (v : Json) :
    List (String × Json) :=
  if fields.any (fun kv => kv.1 = k) then
    fields.map (fun kv => if kv.1 = k then (k, v) else kv)
  else
    fields ++ [(k, v)]

/-- `d.get(k)`: `none` when the key is absent (note a stored JSON `null`
comes back as `some .null`, i.e. Python `None`). -/
def pyGet (fields : List (String × Json)) (k : String) : Option Json :=
  (fields.find? (fun kv => kv.1 = k)).map (fun kv => kv.2)

/-- `d.get(k, default)`. -/
def pyGetD (fields : List (String × Json)) (k : String) (default : Json) : Json :=
  (pyGet fields k).getD default

/-- The whitespace set of Python `str.strip()` (ASCII fragment). -/
def isPySpace (c : Char) : Bool :=
  c = ' ' || c = '\t' || c = '\n' || c = '\r' || c = '\x0b' || c = '\x0c'

/-- `str.strip()` on a character list: drop whitespace from both ends. -/
def stripChars (l : List Char) : List Char :=
  ((l.dropWhile isPySpace).reverse.dropWhile isPySpace).reverse

/-- Python `str.strip()`. -/
def pyStrip (s : String) : String :=
  String.mk (stripChars s.data)

/-- `os.path.basename` on POSIX: the component after the last slash
(`p[p.rfind("/") + 1:]`). -/
def posixBasename (p : String) : String :=
  String.mk ((p.data.reverse.takeWhile (fun c => c ≠ '/')).reverse)

/-! ### base64 and UTF-8 decoding (models of `base64.b64decode` and
`bytes.decode("utf-8")`; their error kinds, `binascii.Error` and
`UnicodeDecodeError`, are both `ValueError` subclasses). -/

/-- Value of a character of the standard base64 alphabet. -/
def b64Val (c : Char) : Option Nat :=
  if 'A' ≤ c ∧ c ≤ 'Z' then some (c.toNat - 65)
  else if 'a' ≤ c ∧ c ≤ 'z' then some (c.toNat - 97 + 26)
  else if '0' ≤ c ∧ c ≤ '9' then some (c.toNat - 48 + 52)
  else if c = '+' then some 62
  else if c = '/' then some 63
  else none

/-- Decode groups of four base64 characters into bytes; padding `=` is
allowed only at the very end. -/
def b64Groups : List Char → Except PyErr (List Nat)
  | [] => .ok []
  | a :: b :: c :: d :: rest =>
    (match b64Val a, b64Val b with
     | some va, some vb =>
       if c = '=' then
         if d = '=' ∧ rest = [] then .ok [va * 4 + vb / 16]
         else .error (.valueError "Invalid base64-encoded string")
       else
         match b64Val c with
         | some vc =>
           if d = '=' then
             if rest = [] then .ok [va * 4 + vb / 16, (vb % 16) * 16 + vc / 4]
             else .error (.valueError "Invalid base64-encoded string")
           else
             match b64Val d with
             | some vd =>
               (b64Groups rest).map
                 (fun bs => (va * 4 + vb / 16) :: ((vb % 16) * 16 + vc / 4) ::
                   ((vc % 4) * 64 + vd) :: bs)
             | none => .error (.valueError "Invalid base64-encoded string")
         | none => .error (.valueError "Invalid base64-encoded string")
     | _, _ => .error (.valueError "Invalid base64-encoded string"))
  | _ => .error (.valueError "Invalid base64-encoded string: length not a multiple of 4")

/-- `base64.b64decode(s)` with the default `validate=False`: characters
outside the alphabet are discarded before decoding. -/
def b64decode (s : String) : Except PyErr (List Nat) :=
  b64Groups (s.data.filter (fun c => (b64Val c).isSome || c = '='))

/-- A UTF-8 continuation byte. -/
def isContByte (b : Nat) : Bool := 128 ≤ b ∧ b < 192

/-- Fuel-indexed strict UTF-8 decoder (rejects overlong forms and
surrogates, as CPython does). -/
def utf8DecodeAux : Nat → List Nat → Except PyErr (List Char)
  | _, [] => .ok []
  | 0, _ => .error (.valueError "utf-8 decode fuel exhausted")
  | fuel + 1, b :: rest =>
    if b < 128 then
      (utf8DecodeAux fuel rest).map (fun cs => Char.ofNat b :: cs)
    else if b < 192 then .error (.valueError "invalid start byte")
    else if b < 224 then
      match rest with
      | c1 :: rest1 =>
        if isContByte c1 then
          let code := (b - 192) * 64 + (c1 - 128)
          if 128 ≤ code then
            (utf8DecodeAux fuel rest1).map (fun cs => Char.ofNat code :: cs)
          else .error (.valueError "invalid start byte")
        else .error (.valueError "invalid continuation byte")
      | [] => .error (.valueError "unexpected end of data")
    else if b < 240 then
      match rest with
      | c1 :: c2 :: rest2 =>
        if isContByte c1 ∧ isContByte c2 then
          let code := (b - 224) * 4096 + (c1 - 128) * 64 + (c2 - 128)
          if 2048 ≤ code ∧ ¬ (55296 ≤ code ∧ code ≤ 57343) then
            (utf8DecodeAux fuel rest2).map (fun cs => Char.ofNat code :: cs)
          else .error (.valueError "invalid code point")
        else .error (.valueError "invalid continuation byte")
      | _ => .error (.valueError "unexpected end of data")
    else if b < 248 then
      match rest with
      | c1 :: c2 :: c3 :: rest3 =>
        if isContByte c1 ∧ isContByte c2 ∧ isContByte c3 then
          let code := (b - 240) * 262144 + (c1 - 128) * 4096 + (c2 - 128) * 64 + (c3 - 128)
          if 65536 ≤ code ∧ code ≤ 1114111 then
            (utf8DecodeAux fuel rest3).map (fun cs => Char.ofNat code :: cs)
          else .error (.valueError "invalid code point")
        else .error (.valueError "invalid continuation byte")
      | _ => .error (.valueError "unexpected end of data")
    else .error (.valueError "invalid start byte")

/-- `bytes.decode("utf-8")`. -/
def utf8Decode (bytes : List Nat) : Except PyErr String :=
  (utf8DecodeAux bytes.length bytes).map String.mk

/-! ### A model of `json.loads` (the `json` module's strict grammar,
including the CPython extensions `NaN`, `Infinity` and `-Infinity`). -/

/-- JSON insignificant whitespace. -/
def isJsonWs (c : Char) : Bool :=
  c = ' ' || c = '\t' || c = '\n' || c = '\r'

/-- An ASCII decimal digit. -/
def isDigitCh (c : Char) : Bool := '0' ≤ c ∧ c ≤ '9'

/-- Value of a hexadecimal digit. -/
def hexVal (c : Char) : Option Nat :=
  if '0' ≤ c ∧ c ≤ '9' then some (c.toNat - 48)
  else if 'a' ≤ c ∧ c ≤ 'f' then some (c.toNat - 87)
  else if 'A' ≤ c ∧ c ≤ 'F' then some (c.toNat - 55)
  else none

/-- Combine four hex digits. -/
def hex4 (h1 h2 h3 h4 : Char) : Option Nat :=
  match hexVal h1, hexVal h2, hexVal h3, hexVal h4 with
  | some a, some b, some c, some d => some (a * 4096 + b * 256 + c * 16 + d)
  | _, _, _, _ => none

/-- Parse the body of a JSON string literal (after the opening quote),
returning the decoded characters and the input after the closing quote.
Surrogate pairs in `\uXXXX` escapes are combined; a lone surrogate
(which CPython would keep as an unpaired surrogate in the `str`) has no
`Char` representation and is rejected by the model. -/
def parseStringAux : Nat → List Char → Except String (List Char × List Char)
  | 0, _ => .error "string fuel exhausted"
  | _ + 1, [] => .error "Unterminated string"
  | fuel + 1, c :: rest =>
    if c = '"' then .ok ([], rest)
    else if c = '\\' then
      match rest with
      | [] => .error "Unterminated string"
      | e :: rest1 =>
        if e = '"' ∨ e = '\\' ∨ e = '/' then
          (parseStringAux fuel rest1).map (fun (cs, r) => (e :: cs, r))
        else if e = 'b' then
          (parseStringAux fuel rest1).map (fun (cs, r) => ('\x08' :: cs, r))
        else if e = 'f' then
          (parseStringAux fuel rest1).map (fun (cs, r) => ('\x0c' :: cs, r))
        else if e = 'n' then
          (parseStringAux fuel rest1).map (fun (cs, r) => ('\n' :: cs, r))
        else if e = 'r' then
          (parseStringAux fuel rest1).map (fun (cs, r) => ('\r' :: cs, r))
        else if e = 't' then
          (parseStringAux fuel rest1).map (fun (cs, r) => ('\t' :: cs, r))
        else if e = 'u' then
          match rest1 with
          | h1 :: h2 :: h3 :: h4 :: rest2 =>
            (match hex4 h1 h2 h3 h4 with
             | none => .error "Invalid \\uXXXX escape"
             | some v =>
               if 55296 ≤ v ∧ v ≤ 56319 then
                 match rest2 with
                 | '\\' :: 'u' :: k1 :: k2 :: k3 :: k4 :: rest3 =>
                   (match hex4 k1 k2 k3 k4 with
                    | some w =>
                      if 56320 ≤ w ∧ w ≤ 57343 then
                        let code := 65536 + (v - 55296) * 1024 + (w - 56320)
                        (parseStringAux fuel rest3).map
                          (fun (cs, r) => (Char.ofNat code :: cs, r))
                      else .error "lone surrogate not representable in model"
                    | none => .error "Invalid \\uXXXX escape")
                 | _ => .error "lone surrogate not representable in model"
               else if 56320 ≤ v ∧ v ≤ 57343 then
                 .error "lone surrogate not representable in model"
               else
                 (parseStringAux fuel rest2).map
                   (fun (cs, r) => (Char.ofNat v :: cs, r)))
          | _ => .error "Invalid \\uXXXX escape"
        else .error "Invalid \\escape"
    else if c.toNat < 32 then .error "Invalid control character"
    else (parseStringAux fuel rest).map (fun (cs, r) => (c :: cs, r))

/-- Lex a JSON number (strict grammar `-?(0|[1-9][0-9]*)(.[0-9]+)?([eE][+-]?[0-9]+)?`),
keeping the lexeme. -/
def parseNumber (cs : List Char) : Except String (String × List Char) :=
  let (sign, cs1) : List Char × List Char :=
    match cs with
    | '-' :: t => (['-'], t)
    | _ => ([], cs)
  match cs1 with
  | [] => .error "Expecting value"
  | c :: t =>
    if c = '0' ∨ ('1' ≤ c ∧ c ≤ '9') then
      let (intRest, afterInt) : List Char × List Char :=
        if c = '0' then ([], t)
        else (t.takeWhile isDigitCh, t.dropWhile isDigitCh)
      let intPart := sign ++ c :: intRest
      let (fracPart, afterFrac) : List Char × List Char :=
        match afterInt with
        | '.' :: t2 =>
          let ds := t2.takeWhile isDigitCh
          if ds.isEmpty then ([], afterInt)
          else ('.' :: ds, t2.dropWhile isDigitCh)
        | _ => ([], afterInt)
      let (expPart, afterExp) : List Char × List Char :=
        match afterFrac with
        | e :: t3 =>
          if e = 'e' ∨ e = 'E' then
            let (sgn, t4) : List Char × List Char :=
              match t3 with
              | s :: t4 => if s = '+' ∨ s = '-' then ([s], t4) else ([], t3)
              | [] => ([], t3)
            let ds := t4.takeWhile isDigitCh
            if ds.isEmpty then ([], afterFrac)
            else (e :: (sgn ++ ds), t4.dropWhile isDigitCh)
          else ([], afterFrac)
        | [] => ([], afterFrac)
      .ok (String.mk (intPart ++ fracPart ++ expPart), afterExp)
    else .error "Expecting value"

/-- Recognise a fixed literal continuation (e.g. `rue` after `t`). -/
def expectLit (lit : List Char) (cs : List Char) (v : Json) :
    Except String (Json × List Char) :=
  if cs.take lit.length = lit then .ok (v, cs.drop lit.length)
  else .error "Expecting value"

/-- Collapse raw key-value pairs in parse order into a Python dict. -/
def collapseFields (pairs : List (String × Json)) : List (String × Json) :=
  pairs.foldl (fun acc kv => insertKV acc kv.1 kv.2) []

mutual

/-- Parse one JSON value. -/
def parseValue : Nat → List Char → Except String (Json × List Char)
  | 0, _ => .error "fuel exhausted"
  | fuel + 1, cs0 =>
    let cs := cs0.dropWhile isJsonWs
    match cs with
    | [] => .error "Expecting value"
    | c :: rest =>
      if c = '"' then
        (parseStringAux (rest.length + 1) rest).map
          (fun (chars, r) => (Json.str (String.mk chars), r))
      else if c = '\x7b' then
        (parseObjFields fuel rest).map
          (fun (pairs, r) => (Json.obj (collapseFields pairs), r))
      else if c = '[' then
        (parseArrayItems fuel rest).map (fun (xs, r) => (Json.arr xs, r))
      else if c = 't' then expectLit ['r', 'u', 'e'] rest (Json.bool true)
      else if c = 'f' then expectLit ['a', 'l', 's', 'e'] rest (Json.bool false)
      else if c = 'n' then expectLit ['u', 'l', 'l'] rest Json.null
      else if c = 'N' then expectLit ['a', 'N'] rest (Json.num "NaN")
      else if c = 'I' then
        expectLit ['n', 'f', 'i', 'n', 'i', 't', 'y'] rest (Json.num "Infinity")
      else if c = '-' ∧ rest.head? = some 'I' then
        expectLit ['I', 'n', 'f', 'i', 'n', 'i', 't', 'y'] rest (Json.num "-Infinity")
      else
        (parseNumber cs).map (fun (lex, r) => (Json.num lex, r))

/-- Parse array items after the opening bracket. -/
def parseArrayItems : Nat → List Char → Except String (List Json × List Char)
  | 0, _ => .error "fuel exhausted"
  | fuel + 1, cs0 =>
    let cs := cs0.dropWhile isJsonWs
    match cs with
    | ']' :: rest => .ok ([], rest)
    | _ => do
      let (v, r) ← parseValue fuel cs
      let (vs, r2) ← parseArrayRest fuel r
      .ok (v :: vs, r2)

/-- Parse `, value` continuations of an array up to the closing bracket. -/
def parseArrayRest : Nat → List Char → Except String (List Json × List Char)
  | 0, _ => .error "fuel exhausted"
  | fuel + 1, cs0 =>
    let cs := cs0.dropWhile isJsonWs
    match cs with
    | ']' :: rest => .ok ([], rest)
    | ',' :: rest => do
      let (v, r) ← parseValue fuel rest
      let (vs, r2) ← parseArrayRest fuel r
      .ok (v :: vs, r2)
    | _ => .error "Expecting comma delimiter"

/-- Parse object members after the opening brace (raw pair list). -/
def parseObjFields : Nat → List Char →
    Except String (List (String × Json) × List Char)
  | 0, _ => .error "fuel exhausted"
  | fuel + 1, cs0 =>
    let cs := cs0.dropWhile isJsonWs
    match cs with
    | '\x7d' :: rest => .ok ([], rest)
    | _ => do
      let (kv, r) ← parseMember fuel cs
      let (kvs, r2) ← parseObjRest fuel r
      .ok (kv :: kvs, r2)

/-- Parse `, member` continuations of an object up to the closing brace. -/
def parseObjRest : Nat → List Char →
    Except String (List (String × Json) × List Char)
  | 0, _ => .error "fuel exhausted"
  | fuel + 1, cs0 =>
    let cs := cs0.dropWhile isJsonWs
    match cs with
    | '\x7d' :: rest => .ok ([], rest)
    | ',' :: rest => do
      let (kv, r) ← parseMember fuel (rest.dropWhile isJsonWs)
      let (kvs, r2) ← parseObjRest fuel r
      .ok (kv :: kvs, r2)
    | _ => .error "Expecting comma delimiter"

/-- Parse one `"key" : value` member. -/
def parseMember : Nat → List Char → Except String ((String × Json) × List Char)
  | 0, _ => .error "fuel exhausted"
  | fuel + 1, cs0 =>
    let cs := cs0.dropWhile isJsonWs
    match cs with
    | '"' :: rest => do
      let (kchars, r) ← parseStringAux (rest.length + 1) rest
      match r.dropWhile isJsonWs with
      | ':' :: r2 => do
        let (v, r3) ← parseValue fuel r2
        .ok ((String.mk kchars, v), r3)
      | _ => .error "Expecting colon delimiter"
    | _ => .error "Expecting property name enclosed in double quotes"

end

/-- `json.loads`: parse a full document; anything left over after the
value (other than whitespace) is an error. -/
def json_loads (s : String) : Except String Json := do
  let (v, rest) ← parseValue (2 * s.length + 8) s.data
  if (rest.dropWhile isJsonWs).isEmpty then .ok v else .error "Extra data"

/-! ### Request normalisation (`DiagnosticRequest.from_event`). -/

/-- The inbound API-gateway envelope: `event` with a `body` entry
(`none` models an absent or `None` body) and the `isBase64Encoded`
flag. -/
structure Event where
  body : Option String
  isBase64Encoded : Bool
deriving DecidableEq, Repr

/-- `event.get("body") or "\x7b\x7d"` followed, when `isBase64Encoded`
is set, by `base64.b64decode(body).decode("utf-8")`. -/
def effective_body (event : Event) : Except PyErr String :=
  let body0 : String :=
    match event.body with
    | none => "\x7b\x7d"
    | some s => if s = "" then "\x7b\x7d" else s
  if event.isBase64Encoded then
    match b64decode body0 with
    | .error e => .error e
    | .ok bytes => utf8Decode bytes
  else
    .ok body0

/-- The validated request record. `media_base64` and `media_filename`
hold the raw JSON values of `payload.get("media")` and
`payload.get("filename")` verbatim (no validation at this stage). -/
structure DiagnosticRequest where
  description : String
  media_base64 : Option Json
  media_filename : Option Json

/-- `DiagnosticRequest.from_event`: decode the body, parse it as JSON
(the `try` block turns any base64/unicode/JSON failure into
`ValueError("Request body is not valid JSON")`), then extract and trim
`description`. A non-dict payload or a non-string description raises an
`AttributeError`, which is outside the `try` block. -/
def DiagnosticRequest.from_event (event : Event) : Except PyErr DiagnosticRequest :=
  match effective_body event with
  | .error _ => .error (.valueError "Request body is not valid JSON")
  | .ok s =>
    match json_loads s with
    | .error _ => .error (.valueError "Request body is not valid JSON")
    | .ok payload =>
      match payload with
      | .obj fields =>
        match pyGetD fields "description" (Json.str "") with
        | .str raw =>
          let description := pyStrip raw
          if description = "" then .error (.valueError "Description is required")
          else
            .ok { description := description
                  media_base64 := pyGet fields "media"
                  media_filename := pyGet fields "filename" }
        | other =>
          .error (.attributeError (other.pyTypeName ++ " object has no attribute strip"))
      | _ =>
        .error (.attributeError (payload.pyTypeName ++ " object has no attribute get"))

/-! ### Response shaping (`DiagnosticResponse` and the normalisation in
`_invoke_openai`). -/

/-- The structured response record. Fields keep the dynamic `Json` type
of the parsed model output. -/
structure DiagnosticResponse where
  summary : Json
  potential_causes : List Json
  safety_checks : List Json
  recommended_actions : List Json

/-- `DiagnosticResponse.as_dict`. -/
def DiagnosticResponse.as_dict (r : DiagnosticResponse) : Json :=
  Json.obj [("summary", r.summary),
            ("potential_causes", Json.arr r.potential_causes),
            ("safety_checks", Json.arr r.safety_checks),
            ("recommended_actions", Json.arr r.recommended_actions)]

/-- Python `list(x)` on an embedded value: lists map to themselves,
strings to their characters, dicts to their keys; everything else is not
iterable. -/
def pyListOf : Json → Except PyErr (List Json)
  | .arr xs => .ok xs
  | .str s => .ok (s.data.map (fun c => Json.str (String.mk [c])))
  | .obj fs => .ok (fs.map (fun kv => Json.str kv.1))
  | other => .error (.typeError (other.pyTypeName ++ " object is not iterable"))

/-- The response normalisation of `_invoke_openai` (lines 160-175): a
best-effort `json.loads` of the model text; on parse failure the raw
text becomes the summary and the three lists are empty. Only
`json.JSONDecodeError` is caught, so a parsed non-dict raises
`AttributeError` at `parsed.get`. -/
def normalize_response (text : String) : Except PyErr DiagnosticResponse :=
  match json_loads text with
  | .error _ =>
    .ok { summary := Json.str text
          potential_causes := []
          safety_checks := []
          recommended_actions := [] }
  | .ok parsed =>
    match parsed with
    | .obj fields => do
      let causes ← pyListOf (pyGetD fields "potential_causes" (Json.arr []))
      let checks ← pyListOf (pyGetD fields "safety_checks" (Json.arr []))
      let actions ← pyListOf (pyGetD fields "recommended_actions" (Json.arr []))
      .ok { summary := pyGetD fields "summary" (Json.str text)
            potential_causes := causes
            safety_checks := checks
            recommended_actions := actions }
    | other =>
      .error (.attributeError (other.pyTypeName ++ " object has no attribute get"))

/-! ### Object store gateway (`utils/s3_helper.py`). -/

/-- A storage-layer failure of `put_object`. `boto` models the
`botocore.exceptions.BotoCoreError` family (connection errors etc.);
`client` models `botocore.exceptions.ClientError` (S3 API error
responses such as `AccessDenied` or `NoSuchBucket`), which subclasses
`Exception` directly. -/
inductive S3Fault where
  | boto (msg : String)
  | client (msg : String)
deriving DecidableEq, Repr

/-- The exception raised for a storage fault. -/
def S3Fault.toPyErr : S3Fault → PyErr
  | .boto m => .botoCoreError m
  | .client m => .clientError m

/-- Behaviour of the S3 collaborator for one invocation: the clock value
`int(time.time())`, the outcome of `put_object` (`none` is success), and
the presigned-URL generator. -/
structure S3Behavior where
  timestamp : Nat
  putOutcome : Option S3Fault
  presign : String → String → String

/-- `S3Object` (from `utils/s3_helper.py`). -/
structure S3Object where
  bucket : String
  key : String
  presigned_url : String
deriving DecidableEq, Repr

/-- One `put_object` call as recorded in the effect trace. -/
structure WriteRec where
  bucket : String
  key : String
  contentType : String
deriving DecidableEq, Repr

/-- `_guess_content_type`: modelled fragment of the stdlib `mimetypes`
table for common media extensions, defaulting to the generic binary
type. -/
def _guess_content_type (filename : String) : String :=
  let lower := String.mk (filename.data.map Char.toLower)
  let ends := fun (suffix : String) => suffix.data.isSuffixOf lower.data
  if ends ".png" then "image/png"
  else if ends ".jpg" then "image/jpeg"
  else if ends ".jpeg" then "image/jpeg"
  else if ends ".gif" then "image/gif"
  else if ends ".webp" then "image/webp"
  else if ends ".mp4" then "video/mp4"
  else if ends ".mov" then "video/quicktime"
  else "application/octet-stream"

/-- `upload_media_from_base64`: decode the payload (a bad payload raises
`ValueError("Invalid base64 payload provided")` before any store call),
build the timestamped key, write the object, and presign a retrieval
URL with `ExpiresIn=3600`. The second component is the trace of
`put_object` calls (the call is recorded even when the store faults).
The model assumes `boto3` is importable, so `_get_s3_client` succeeds. -/
def upload_media_from_base64 (s3 : S3Behavior) (bucket : String)
    (base64_payload : String) (filename : String) :
    Except PyErr S3Object × List WriteRec :=
  match b64decode base64_payload with
  | .error _ => (.error (.valueError "Invalid base64 payload provided"), [])
  | .ok _binary_data =>
    let content_type := _guess_content_type filename
    let key := "uploads/" ++ toString s3.timestamp ++ "-" ++ posixBasename filename
    match s3.putOutcome with
    | some fault => (.error fault.toPyErr, [{ bucket := bucket, key := key, contentType := content_type }])
    | none =>
      (.ok { bucket := bucket, key := key, presigned_url := s3.presign bucket key },
       [{ bucket := bucket, key := key, contentType := content_type }])

/-! ### Prompt composition (`_build_messages`). -/

/-- One element of the user entry's content list. -/
inductive Segment where
  | text (s : String)
  | input_image (url : String)
deriving DecidableEq, Repr

/-- A message content is either a plain string (the system instruction)
or a list of segments (the user entry). -/
inductive MsgContent where
  | str (s : String)
  | parts (ps : List Segment)
deriving DecidableEq, Repr

/-- A role-tagged chat message. -/
structure ChatMessage where
  role : String
  content : MsgContent
deriving DecidableEq, Repr

/-- The fixed system instruction of `_build_messages` (transcribed with
the apostrophe of the original wording omitted; no claim depends on the
exact constant). -/
def systemInstruction : String :=
  "You are an experienced automotive mechanic. Analyse the users " ++
  "description and the provided media to produce a concise diagnostic report."

/-- `_build_messages`: the fixed system entry followed by one user entry
whose content starts with the description text segment and, when a media
object is present, an image-reference segment with its presigned URL. -/
def _build_messages (request : DiagnosticRequest) (media_object : Option S3Object) :
    List ChatMessage :=
  let user_content : List Segment :=
    [Segment.text ("User description: " ++ request.description)] ++
    (match media_object with
     | some ob => [Segment.input_image ob.presigned_url]
     | none => [])
  [{ role := "system", content := MsgContent.str systemInstruction },
   { role := "user", content := MsgContent.parts user_content }]

/-! ### Model invocation (`_invoke_openai`). -/

/-- A content part of a chat-completion message: either a Python dict or
some other value (only dicts contribute to the extracted text). -/
inductive PyPart where
  | dict (fields : List (String × Json))
  | other (v : Json)

/-- The `content` attribute of `completion.choices[0].message`. -/
inductive ChatContent where
  | str (s : String)
  | noneVal
  | list (parts : List PyPart)

/-- The shape of the OpenAI client for one invocation: a `responses` API
with the `output_text` attribute of its completion (absent attribute and
`None` both read back as the empty string), a `chat.completions` API
with the content of each choice, or a client with neither capability. -/
inductive ClientKind where
  | responses (output_text : Option String)
  | chat (choices : List ChatContent)
  | neither

/-- `"".join(part.get("text", "") for part in content if isinstance(part, dict))`:
non-dict parts are skipped; a dict part contributes its `text` entry
(default empty); a non-string `text` value makes `join` raise
`TypeError`. The declared `type` of a part is never consulted. -/
def joinParts : List PyPart → Except PyErr String
  | [] => .ok ""
  | PyPart.other _ :: rest => joinParts rest
  | PyPart.dict fields :: rest =>
    match pyGetD fields "text" (Json.str "") with
    | .str t => (joinParts rest).map (fun s => t ++ s)
    | _ => .error (.typeError "sequence item: expected str instance")

/-- Raw-text extraction of `_invoke_openai` together with the number of
endpoint calls it makes (`0` when no API capability exists, otherwise
`1`). -/
def extract_text (client : ClientKind) : Except PyErr String × Nat :=
  match client with
  | .responses output_text =>
    (.ok (match output_text with | some s => s | none => ""), 1)
  | .chat choices =>
    (match choices with
     | [] => .ok ""
     | content :: _ =>
       match content with
       | .str s => .ok s
       | .noneVal => .ok ""
       | .list parts => joinParts parts, 1)
  | .neither =>
    (.error (.runtimeError "OpenAI client does not support responses or chat completions APIs"), 0)

/-- Process configuration, read from the environment at module load. -/
structure Env where
  openai_api_key : Option String
  s3_bucket : Option String
  openai_model : String

/-- Truthiness of an optional environment string (`None` and the empty
string are falsy). -/
def optTruthy : Option String → Bool
  | none => false
  | some s => s ≠ ""

/-- `_invoke_openai` (given the client shape as an oracle): check the
API credential, call whichever endpoint exists and extract its text,
fail on an empty trimmed text, and otherwise normalise the text. The
second component counts endpoint calls. -/
def _invoke_openai (env : Env) (client : ClientKind)
    (_messages : List ChatMessage) : Except PyErr DiagnosticResponse × Nat :=
  if optTruthy env.openai_api_key = false then
    (.error (.runtimeError "OPENAI_API_KEY environment variable is not set"), 0)
  else
    match extract_text client with
    | (.error e, n) => (.error e, n)
    | (.ok raw, n) =>
      let text := pyStrip raw
      if text = "" then
        (.error (.runtimeError "OpenAI returned an empty response"), n)
      else
        (normalize_response text, n)

/-! ### The handler (`lambda_handler`). -/

/-- An HTTP-style response envelope; the body is kept as a JSON value
(the code serialises it with `json.dumps`). -/
structure HttpResponse where
  statusCode : Nat
  body : Json

/-- The uniform error envelope: status 400 with `\x7b error: message \x7d`. -/
def err400 (msg : String) : HttpResponse :=
  { statusCode := 400, body := Json.obj [("error", Json.str msg)] }

/-- The success envelope: status 200 with the serialised response. -/
def ok200 (r : DiagnosticResponse) : HttpResponse :=
  { statusCode := 200, body := r.as_dict }

/-- The handler boundary: exceptions in the
`(ValueError, RuntimeError, BotoCoreError)` tuple become the uniform
400 envelope; anything else propagates to the host runtime. -/
def boundary : Except PyErr HttpResponse → Except PyErr HttpResponse
  | .ok r => .ok r
  | .error e => if e.caught then .ok (err400 e.msg) else .error e

/-- The side effects of one invocation: `put_object` calls and model
endpoint calls. -/
structure Trace where
  writes : List WriteRec
  modelCalls : Nat
deriving DecidableEq, Repr

/-- Truthiness of an optional request field. -/
def jsonOptTruthy : Option Json → Bool
  | none => false
  | some j => j.truthy

/-- Steps 3-6 of the handler: compose the conversation, invoke the
model, and shape the outcome (before the boundary). -/
def handler_rest (env : Env) (client : ClientKind) (request : DiagnosticRequest)
    (media_object : Option S3Object) (writes : List WriteRec) :
    Except PyErr HttpResponse × Trace :=
  let messages := _build_messages request media_object
  let (ires, calls) := _invoke_openai env client messages
  match ires with
  | .error e => (boundary (.error e), { writes := writes, modelCalls := calls })
  | .ok response => (.ok (ok200 response), { writes := writes, modelCalls := calls })

/-- `lambda_handler`: normalise the request, optionally upload media
(requiring a configured bucket), compose, invoke, and shape, catching
the anticipated exception kinds at the boundary. The `Trace` component
records the store writes and model calls that happened. -/
def lambda_handler (env : Env) (s3 : S3Behavior) (client : ClientKind)
    (event : Event) : Except PyErr HttpResponse × Trace :=
  match DiagnosticRequest.from_event event with
  | .error e => (boundary (.error e), { writes := [], modelCalls := 0 })
  | .ok request =>
    if jsonOptTruthy request.media_base64 && jsonOptTruthy request.media_filename then
      match env.s3_bucket with
      | none =>
        (boundary (.error (.runtimeError "S3_BUCKET environment variable is not set")),
         { writes := [], modelCalls := 0 })
      | some bucket =>
        if bucket = "" then
          (boundary (.error (.runtimeError "S3_BUCKET environment variable is not set")),
           { writes := [], modelCalls := 0 })
        else
          match request.media_base64, request.media_filename with
          | some (.str payload), some (.str filename) =>
            let (ures, writes) := upload_media_from_base64 s3 bucket payload filename
            (match ures with
             | .error e => (boundary (.error e), { writes := writes, modelCalls := 0 })
             | .ok media_object => handler_rest env client request (some media_object) writes)
          | _, _ =>
            -- A truthy non-string media value or filename blows up inside
            -- the stdlib calls of the upload helper with a TypeError.
            (boundary (.error (.typeError "argument should be a bytes-like object or ASCII string")),
             { writes := [], modelCalls := 0 })
    else
      handler_rest env client request none []

/-! ### Helper facts about `dropWhile` and `pyStrip`. -/

theorem dropWhile_head_not {p : Char → Bool} :
    ∀ (l : List Char) (x : Char) (xs : List Char),
      l.dropWhile p = x :: xs → p x = false := by
  intro l
  induction l with
  | nil => intro x xs h; cases h
  | cons a t ih =>
    intro x xs h
    by_cases ha : p a
    · exact ih x xs (by simpa [List.dropWhile, ha] using h)
    · have : a :: t = x :: xs := by simpa [List.dropWhile, ha] using h
      cases this
      simpa using ha

theorem dropWhile_idem {p : Char → Bool} :
    ∀ (l : List Char), (l.dropWhile p).dropWhile p = l.dropWhile p := by
  intro l
  induction l with
  | nil => rfl
  | cons a t ih =>
    by_cases ha : p a
    · simpa [List.dropWhile, ha] using ih
    · simp [List.dropWhile, ha]

theorem dropWhile_decomp {p : Char → Bool} :
    ∀ (l : List Char), ∃ w, l = w ++ l.dropWhile p ∧ ∀ c ∈ w, p c = true := by
  intro l
  induction l with
  | nil => exact ⟨[], rfl, by simp⟩
  | cons a t ih =>
    by_cases ha : p a
    · obtain ⟨w, hw, hall⟩ := ih
      refine ⟨a :: w, ?_, ?_⟩
      · simpa [List.dropWhile, ha] using congrArg (a :: ·) hw
      · intro c hc
        rcases List.mem_cons.mp hc with h | h
        · simpa [h] using ha
        · exact hall c h
    · exact ⟨[], by simp [List.dropWhile, ha], by simp⟩

theorem dropWhile_of_not_head {p : Char → Bool} (x : Char) (xs : List Char)
    (hx : p x = false) : (x :: xs).dropWhile p = x :: xs := by
  simp [List.dropWhile, hx]

theorem stripChars_idem (l : List Char) : stripChars (stripChars l) = stripChars l := by
  unfold stripChars
  set p := isPySpace with hp
  set A := l.dropWhile p with hA
  set C := A.reverse.dropWhile p with hC
  have hBrev : C.reverse.reverse = C := by simp
  have hBdrop : C.reverse.dropWhile p = C.reverse := by
    cases hB : C.reverse with
    | nil => rfl
    | cons x xs =>
      obtain ⟨w, hw, _⟩ := dropWhile_decomp (p := p) A.reverse
      have hAeq : A = C.reverse ++ w.reverse := by
        have := congrArg List.reverse hw
        simpa [hC] using this
      have hx : p x = false := by
        apply dropWhile_head_not (p := p) l x (xs ++ w.reverse)
        rw [← hA, hAeq, hB]
        rfl
      exact dropWhile_of_not_head x xs hx
  rw [hBdrop, hBrev, dropWhile_idem]

theorem pyStrip_idem (s : String) : pyStrip (pyStrip s) = pyStrip s := by
  unfold pyStrip
  exact congrArg String.mk (stripChars_idem s.data)

/-! ### Small discriminators and fixtures used by the claim theorems. -/

/-- Whether a value is a Python dict. -/
def Json.isObj : Json → Bool
  | .obj _ => true
  | _ => false

/-- Whether a value is a Python str. -/
def Json.isStr : Json → Bool
  | .str _ => true
  | _ => false

/-- Whether `json.loads` raises on the given text. -/
def parseFails (s : String) : Bool :=
  match json_loads s with
  | .ok _ => false
  | .error _ => true

/-- The string a part contributes on the fallback extraction path
(`none` when the part is not a dict or its `text` entry is not a
string). -/
def dictText : PyPart → Option String
  | .dict fields =>
    match pyGetD fields "text" (Json.str "") with
    | .str t => some t
    | _ => none
  | .other _ => none

/-- Concatenation of a list of strings in order. -/
def concatTexts (l : List String) : String := l.foldr (fun a b => a ++ b) ""

/-- Modelled from the spec: the extraction rule the C8 claim describes,
namely the concatenation, in order, of the text of only the text-typed
segments (dict parts whose `type` entry is the string `"text"`), with
segments of any other type contributing nothing. Comparison definition
only; the code model is `joinParts`. -/
def spec_text_typed_concat (parts : List PyPart) : String :=
  concatTexts (parts.filterMap (fun p =>
    match p with
    | PyPart.dict fields =>
      match pyGet fields "type", pyGetD fields "text" (Json.str "") with
      | some (Json.str ty), Json.str t => if ty = "text" then some t else none
      | _, _ => none
    | PyPart.other _ => none))

/-- A fully configured environment. -/
def envOk : Env :=
  { openai_api_key := some "test-key", s3_bucket := some "bucket", openai_model := "gpt-4o-mini" }

/-- A healthy store behaviour. -/
def s3Ok : S3Behavior :=
  { timestamp := 1700000000, putOutcome := none,
    presign := fun b k => "https://" ++ b ++ "/" ++ k }

/-- A store whose write fails with an S3 API error response
(`ClientError`). -/
def s3ClientFault : S3Behavior :=
  { timestamp := 1700000000, putOutcome := some (.client "AccessDenied"),
    presign := fun b k => "https://" ++ b ++ "/" ++ k }

/-- An envelope with a description only. -/
def evPlain : Event :=
  { body := some "\x7b\"description\": \"engine stalls\"\x7d", isBase64Encoded := false }

/-- An envelope with description, media payload and filename. -/
def evMedia : Event :=
  { body := some "\x7b\"description\": \"engine stalls\", \"media\": \"QUJD\", \"filename\": \"a/b/photo.png\"\x7d",
    isBase64Encoded := false }

/-! ### Evaluation lemmas for `from_event` and the handler. -/

theorem from_event_blank_desc (event : Event) (s : String)
    (fields : List (String × Json)) (d : String)
    (h1 : effective_body event = .ok s)
    (h2 : json_loads s = .ok (.obj fields))
    (h3 : pyGetD fields "description" (Json.str "") = .str d)
    (h4 : pyStrip d = "") :
    DiagnosticRequest.from_event event = .error (.valueError "Description is required") := by
  simp only [DiagnosticRequest.from_event, h1, h2, h3, h4]
  rfl

theorem from_event_ok_desc (event : Event) (s : String)
    (fields : List (String × Json)) (d : String)
    (h1 : effective_body event = .ok s)
    (h2 : json_loads s = .ok (.obj fields))
    (h3 : pyGetD fields "description" (Json.str "") = .str d)
    (h4 : pyStrip d ≠ "") :
    DiagnosticRequest.from_event event =
      .ok { description := pyStrip d
            media_base64 := pyGet fields "media"
            media_filename := pyGet fields "filename" } := by
  simp only [DiagnosticRequest.from_event, h1, h2, h3, h4]
  rfl

theorem from_event_nonobj (event : Event) (s : String) (j : Json)
    (h1 : effective_body event = .ok s)
    (h2 : json_loads s = .ok j)
    (h3 : j.isObj = false) :
    DiagnosticRequest.from_event event =
      .error (.attributeError (j.pyTypeName ++ " object has no attribute get")) := by
  cases j <;> simp only [DiagnosticRequest.from_event, h1, h2]
  all_goals first
    | rfl
    | simp [Json.isObj] at h3

theorem from_event_nonstr_desc (event : Event) (s : String)
    (fields : List (String × Json)) (v : Json)
    (h1 : effective_body event = .ok s)
    (h2 : json_loads s = .ok (.obj fields))
    (h3 : pyGetD fields "description" (Json.str "") = v)
    (h4 : v.isStr = false) :
    DiagnosticRequest.from_event event =
      .error (.attributeError (v.pyTypeName ++ " object has no attribute strip")) := by
  cases v <;> simp only [DiagnosticRequest.from_event, h1, h2, h3]
  all_goals first
    | rfl
    | simp [Json.isStr] at h4

theorem from_event_ok_description (event : Event) (req : DiagnosticRequest)
    (h : DiagnosticRequest.from_event event = .ok req) :
    req.description = pyStrip req.description ∧ req.description ≠ "" := by
  unfold DiagnosticRequest.from_event at h
  rcases heb : effective_body event with e | s
  · simp only [heb] at h
    simp at h
  · simp only [heb] at h
    rcases hj : json_loads s with e | j
    · simp only [hj] at h
      simp at h
    · simp only [hj] at h
      cases j
      case obj fields =>
        rcases hd : pyGetD fields "description" (Json.str "") with _ | b | n | raw | xs | fs
        case str =>
          simp only [hd] at h
          by_cases hz : pyStrip raw = ""
          · rw [if_pos hz] at h
            simp at h
          · rw [if_neg hz] at h
            simp only [Except.ok.injEq] at h
            subst h
            exact ⟨(pyStrip_idem raw).symm, hz⟩
        all_goals simp only [hd] at h; simp at h
      all_goals simp at h

theorem lambda_handler_req_error (env : Env) (s3 : S3Behavior) (client : ClientKind)
    (event : Event) (e : PyErr)
    (h : DiagnosticRequest.from_event event = .error e) :
    lambda_handler env s3 client event =
      (boundary (.error e), { writes := [], modelCalls := 0 }) := by
  simp only [lambda_handler, h]

theorem handler_rest_writes (env : Env) (client : ClientKind)
    (req : DiagnosticRequest) (mobj : Option S3Object) (writes : List WriteRec) :
    (handler_rest env client req mobj writes).2.writes = writes := by
  unfold handler_rest
  rcases hi : _invoke_openai env client (_build_messages req mobj) with ⟨ir, n⟩
  cases ir <;> simp [hi]

/-! ### Claim theorems. -/

/-- C4: for every envelope whose body is valid JSON with a missing,
empty or whitespace-only `description`, the handler returns status 400
with the message `Description is required`; and request normalisation
never yields a `DiagnosticRequest` whose trimmed description is empty
(`pyGetD fields "description" (Json.str "") = Json.str d` covers both a
missing field, via the `""` default, and a present string field). -/
theorem claim_C4 :
    (∀ (env : Env) (s3 : S3Behavior) (client : ClientKind) (event : Event)
       (s : String) (fields : List (String × Json)) (d : String),
       effective_body event = .ok s →
       json_loads s = .ok (.obj fields) →
       pyGetD fields "description" (Json.str "") = .str d →
       pyStrip d = "" →
       lambda_handler env s3 client event =
         (.ok (err400 "Description is required"), { writes := [], modelCalls := 0 })) ∧
    (∀ (event : Event) (req : DiagnosticRequest),
       DiagnosticRequest.from_event event = .ok req →
       pyStrip req.description ≠ "") := by
  constructor
  · intro env s3 client event s fields d h1 h2 h3 h4
    have hfe := from_event_blank_desc event s fields d h1 h2 h3 h4
    rw [lambda_handler_req_error env s3 client event _ hfe]
    simp [boundary, PyErr.caught, PyErr.msg]
  · intro event req h
    obtain ⟨hfix, hne⟩ := from_event_ok_description event req h
    rw [← hfix]
    exact hne

/-- C4 witness: a whitespace-only description yields the 400 envelope,
and a normalised request has a nonempty trimmed description. -/
theorem claim_C4_witness :
    (effective_body { body := some "\x7b\"description\": \"   \"\x7d", isBase64Encoded := false }
        = .ok "\x7b\"description\": \"   \"\x7d") ∧
    (json_loads "\x7b\"description\": \"   \"\x7d"
        = .ok (.obj [("description", Json.str "   ")])) ∧
    (pyGetD [("description", Json.str "   ")] "description" (Json.str "") = .str "   ") ∧
    (pyStrip "   " = "") ∧
    (lambda_handler envOk s3Ok (.responses (some "hello"))
        { body := some "\x7b\"description\": \"   \"\x7d", isBase64Encoded := false }
      = (.ok (err400 "Description is required"), { writes := [], modelCalls := 0 })) ∧
    (DiagnosticRequest.from_event evPlain
        = .ok { description := "engine stalls", media_base64 := none, media_filename := none }) ∧
    pyStrip ("engine stalls") ≠ "" := by
  refine ⟨by rfl, by rfl, by rfl, by rfl, ?_, by rfl, ?_⟩
  · exact claim_C4.1 envOk s3Ok (.responses (some "hello")) _ _ _ "   "
      (by rfl) (by rfl) (by rfl) (by rfl)
  · exact claim_C4.2 evPlain
      { description := "engine stalls", media_base64 := none, media_filename := none } (by rfl)

/-- C5: for every valid envelope with truthy media fields while the
bucket configuration is absent (unset or empty), the handler returns
status 400 with the message `S3_BUCKET environment variable is not set`
and performs no store write and no model call. -/
theorem claim_C5 (env : Env) (s3 : S3Behavior) (client : ClientKind)
    (event : Event) (req : DiagnosticRequest)
    (hreq : DiagnosticRequest.from_event event = .ok req)
    (hm : jsonOptTruthy req.media_base64 = true)
    (hf : jsonOptTruthy req.media_filename = true)
    (hb : optTruthy env.s3_bucket = false) :
    lambda_handler env s3 client event =
      (.ok (err400 "S3_BUCKET environment variable is not set"),
       { writes := [], modelCalls := 0 }) := by
  simp only [lambda_handler, hreq, hm, hf, Bool.and_self, if_true]
  rcases hbv : env.s3_bucket with _ | b
  · simp [boundary, PyErr.caught, PyErr.msg]
  · have hbe : b = "" := by
      by_contra hne
      simp [optTruthy, hbv, hne] at hb
    subst hbe
    simp [boundary, PyErr.caught, PyErr.msg]

/-- C5 witness: media plus filename with `S3_BUCKET` unset gives the
bucket-configuration 400 with an empty trace. -/
theorem claim_C5_witness :
    (DiagnosticRequest.from_event evMedia
      = .ok { description := "engine stalls",
              media_base64 := some (Json.str "QUJD"),
              media_filename := some (Json.str "a/b/photo.png") }) ∧
    (jsonOptTruthy (some (Json.str "QUJD")) = true) ∧
    (jsonOptTruthy (some (Json.str "a/b/photo.png")) = true) ∧
    (optTruthy (none : Option String) = false) ∧
    (lambda_handler { envOk with s3_bucket := none } s3Ok (.responses (some "hello")) evMedia
      = (.ok (err400 "S3_BUCKET environment variable is not set"),
         { writes := [], modelCalls := 0 })) := by
  refine ⟨by rfl, by rfl, by rfl, by rfl, ?_⟩
  exact claim_C5 { envOk with s3_bucket := none } s3Ok (.responses (some "hello")) evMedia
    { description := "engine stalls",
      media_base64 := some (Json.str "QUJD"),
      media_filename := some (Json.str "a/b/photo.png") }
    (by rfl) (by rfl) (by rfl) (by rfl)

/-- C10: a body that is valid JSON but not an object, or an object whose
`description` is a non-string value, makes request normalisation raise
`AttributeError`, which is outside the boundary's caught set, so the
handler propagates it to the host runtime instead of returning 400. -/
theorem claim_C10 :
    (∀ (env : Env) (s3 : S3Behavior) (client : ClientKind) (event : Event)
       (s : String) (j : Json),
       effective_body event = .ok s →
       json_loads s = .ok j →
       j.isObj = false →
       lambda_handler env s3 client event =
         (.error (.attributeError (j.pyTypeName ++ " object has no attribute get")),
          { writes := [], modelCalls := 0 })) ∧
    (∀ (env : Env) (s3 : S3Behavior) (client : ClientKind) (event : Event)
       (s : String) (fields : List (String × Json)) (v : Json),
       effective_body event = .ok s →
       json_loads s = .ok (.obj fields) →
       pyGetD fields "description" (Json.str "") = v →
       v.isStr = false →
       lambda_handler env s3 client event =
         (.error (.attributeError (v.pyTypeName ++ " object has no attribute strip")),
          { writes := [], modelCalls := 0 })) ∧
    (∀ m, (PyErr.attributeError m).caught = false) := by
  refine ⟨?_, ?_, fun m => rfl⟩
  · intro env s3 client event s j h1 h2 h3
    have hfe := from_event_nonobj event s j h1 h2 h3
    rw [lambda_handler_req_error env s3 client event _ hfe]
    simp [boundary, PyErr.caught]
  · intro env s3 client event s fields v h1 h2 h3 h4
    have hfe := from_event_nonstr_desc event s fields v h1 h2 h3 h4
    rw [lambda_handler_req_error env s3 client event _ hfe]
    simp [boundary, PyErr.caught]

/-- C10 witness: a JSON-array body escapes as
`AttributeError: list object has no attribute get`, and an integer
description escapes as `AttributeError: int object has no attribute
strip`; neither is caught. -/
theorem claim_C10_witness :
    (effective_body { body := some "[1, 2]", isBase64Encoded := false } = .ok "[1, 2]") ∧
    (json_loads "[1, 2]" = .ok (.arr [Json.num "1", Json.num "2"])) ∧
    ((Json.arr [Json.num "1", Json.num "2"]).isObj = false) ∧
    (lambda_handler envOk s3Ok (.responses (some "hello"))
        { body := some "[1, 2]", isBase64Encoded := false }
      = (.error (.attributeError "list object has no attribute get"),
         { writes := [], modelCalls := 0 })) ∧
    (json_loads "\x7b\"description\": 5\x7d" = .ok (.obj [("description", Json.num "5")])) ∧
    ((Json.num "5").isStr = false) ∧
    (lambda_handler envOk s3Ok (.responses (some "hello"))
        { body := some "\x7b\"description\": 5\x7d", isBase64Encoded := false }
      = (.error (.attributeError "int object has no attribute strip"),
         { writes := [], modelCalls := 0 })) ∧
    (PyErr.attributeError "list object has no attribute get").caught = false := by
  refine ⟨by rfl, by rfl, by rfl, ?_, by rfl, by rfl, ?_, ?_⟩
  · exact claim_C10.1 envOk s3Ok (.responses (some "hello"))
      { body := some "[1, 2]", isBase64Encoded := false } "[1, 2]"
      (.arr [Json.num "1", Json.num "2"]) (by rfl) (by rfl) (by rfl)
  · exact claim_C10.2.1 envOk s3Ok (.responses (some "hello"))
      { body := some "\x7b\"description\": 5\x7d", isBase64Encoded := false }
      "\x7b\"description\": 5\x7d" [("description", Json.num "5")]
      (Json.num "5") (by rfl) (by rfl) (by rfl) (by rfl)
  · exact claim_C10.2.2 "list object has no attribute get"

/-- A store whose write fails inside the `BotoCoreError` family. -/
def s3BotoFault : S3Behavior :=
  { timestamp := 1700000000, putOutcome := some (.boto "An unspecified error occurred"),
    presign := fun b k => "https://" ++ b ++ "/" ++ k }

/-- C1 counterexample: an invocation whose object-store write fails with
an S3 API error response (`ClientError`) is NOT caught at the handler
boundary — the handler's result is a propagated exception, not the 400
envelope, even though the write was attempted. -/
theorem claim_C1_counterexample :
    (lambda_handler envOk s3ClientFault (.responses (some "hello")) evMedia).1
      = .error (.clientError "AccessDenied") ∧
    (lambda_handler envOk s3ClientFault (.responses (some "hello")) evMedia).2.writes
      = [{ bucket := "bucket", key := "uploads/1700000000-photo.png",
           contentType := "image/png" }] ∧
    (PyErr.clientError "AccessDenied").caught = false :=
  ⟨by rfl, by rfl, by rfl⟩

/-- C1 (amended): an object-store write failure in the `BotoCoreError`
family is caught at the handler boundary and rendered as the uniform
400 envelope with the exception message; a storage `ClientError` is
outside the caught tuple and propagates to the host runtime. -/
theorem claim_C1 (env : Env) (s3 : S3Behavior) (client : ClientKind)
    (event : Event) (req : DiagnosticRequest)
    (bucket payload filename m : String) (data : List Nat)
    (hreq : DiagnosticRequest.from_event event = .ok req)
    (hm : req.media_base64 = some (.str payload)) (hpn : payload ≠ "")
    (hf : req.media_filename = some (.str filename)) (hfn : filename ≠ "")
    (hb : env.s3_bucket = some bucket) (hbn : bucket ≠ "")
    (hdec : b64decode payload = .ok data)
    (hput : s3.putOutcome = some (.boto m)) :
    lambda_handler env s3 client event =
      (.ok (err400 m),
       { writes := [{ bucket := bucket,
                      key := "uploads/" ++ toString s3.timestamp ++ "-" ++ posixBasename filename,
                      contentType := _guess_content_type filename }],
         modelCalls := 0 }) := by
  have hm' : jsonOptTruthy req.media_base64 = true := by
    simp [jsonOptTruthy, hm, Json.truthy, hpn]
  have hf' : jsonOptTruthy req.media_filename = true := by
    simp [jsonOptTruthy, hf, Json.truthy, hfn]
  simp only [lambda_handler, hreq, hm', hf', Bool.and_self, if_true, hb]
  rw [if_neg hbn]
  simp only [hm, hf]
  simp only [upload_media_from_base64, hdec, hput]
  simp [boundary, PyErr.caught, S3Fault.toPyErr, PyErr.msg]

/-- C1 witness: a `BotoCoreError` store failure on a concrete media
envelope yields the 400 envelope with the store message, after one
attempted write. -/
theorem claim_C1_witness :
    (DiagnosticRequest.from_event evMedia
      = .ok { description := "engine stalls",
              media_base64 := some (Json.str "QUJD"),
              media_filename := some (Json.str "a/b/photo.png") }) ∧
    (envOk.s3_bucket = some "bucket") ∧
    (b64decode "QUJD" = .ok [65, 66, 67]) ∧
    (s3BotoFault.putOutcome = some (.boto "An unspecified error occurred")) ∧
    (lambda_handler envOk s3BotoFault (.responses (some "hello")) evMedia
      = (.ok (err400 "An unspecified error occurred"),
         { writes := [{ bucket := "bucket",
                        key := "uploads/" ++ toString s3BotoFault.timestamp ++ "-" ++ posixBasename "a/b/photo.png",
                        contentType := _guess_content_type "a/b/photo.png" }],
           modelCalls := 0 })) := by
  refine ⟨by rfl, by rfl, by rfl, by rfl, ?_⟩
  exact claim_C1 envOk s3BotoFault (.responses (some "hello")) evMedia
    { description := "engine stalls",
      media_base64 := some (Json.str "QUJD"),
      media_filename := some (Json.str "a/b/photo.png") }
    "bucket" "QUJD" "a/b/photo.png" "An unspecified error occurred" [65, 66, 67]
    (by rfl) (by rfl) (by decide) (by rfl) (by decide) (by rfl) (by decide)
    (by rfl) (by rfl)

/-- C7 counterexample: the handler CAN return a status-200 success
envelope whose summary is empty — when the model output is the valid
JSON `\x7b"summary": ""\x7d`, whose extracted text is nonempty, the
structured parse succeeds and the summary field is the empty string. -/
theorem claim_C7_counterexample :
    lambda_handler envOk s3Ok (.responses (some "\x7b\"summary\": \"\"\x7d")) evPlain
      = (.ok { statusCode := 200,
               body := Json.obj [("summary", Json.str ""),
                                 ("potential_causes", Json.arr []),
                                 ("safety_checks", Json.arr []),
                                 ("recommended_actions", Json.arr [])] },
         { writes := [], modelCalls := 1 }) ∧
    pyStrip "\x7b\"summary\": \"\"\x7d" ≠ "" :=
  ⟨by rfl, by decide⟩

/-- C7 (amended): every model invocation whose extracted text is empty
or whitespace-only after trimming fails with the empty-output
`RuntimeError` (so no success envelope arises from an empty model
text); a 200 envelope with an empty summary remains possible when the
model returns valid JSON whose `summary` field is itself empty. -/
theorem claim_C7 (env : Env) (client : ClientKind)
    (messages : List ChatMessage) (raw : String)
    (hk : optTruthy env.openai_api_key = true)
    (he : (extract_text client).1 = .ok raw)
    (hs : pyStrip raw = "") :
    _invoke_openai env client messages =
      (.error (.runtimeError "OpenAI returned an empty response"),
       (extract_text client).2) := by
  unfold _invoke_openai
  rw [hk]
  rcases hec : extract_text client with ⟨r, n⟩
  rw [hec] at he
  simp only at he
  subst he
  simp [hs]

/-- C7 witness: a whitespace-only `output_text` makes the invocation
fail with the empty-output error after its single endpoint call. -/
theorem claim_C7_witness :
    (optTruthy envOk.openai_api_key = true) ∧
    ((extract_text (.responses (some "   "))).1 = .ok "   ") ∧
    (pyStrip "   " = "") ∧
    _invoke_openai envOk (.responses (some "   ")) [] =
      (.error (.runtimeError "OpenAI returned an empty response"), 1) := by
  refine ⟨by rfl, by rfl, by rfl, ?_⟩
  have h := claim_C7 envOk (.responses (some "   ")) [] "   " (by rfl) (by rfl) (by rfl)
  simpa using h

/-- C9: the upload step is guarded exactly by the truthiness of both
media fields. When the conjunction is false the handler runs the rest
of the pipeline with no stored media (the conversation is composed from
`none`) and performs no store write; when both fields are truthy
strings, the bucket is configured and the payload decodes, exactly the
timestamped write is performed. -/
theorem claim_C9 :
    (∀ (env : Env) (s3 : S3Behavior) (client : ClientKind) (event : Event)
       (req : DiagnosticRequest),
       DiagnosticRequest.from_event event = .ok req →
       (jsonOptTruthy req.media_base64 && jsonOptTruthy req.media_filename) = false →
       lambda_handler env s3 client event = handler_rest env client req none [] ∧
       (lambda_handler env s3 client event).2.writes = []) ∧
    (∀ (env : Env) (s3 : S3Behavior) (client : ClientKind) (event : Event)
       (req : DiagnosticRequest) (bucket payload filename : String) (data : List Nat),
       DiagnosticRequest.from_event event = .ok req →
       req.media_base64 = some (.str payload) → payload ≠ "" →
       req.media_filename = some (.str filename) → filename ≠ "" →
       env.s3_bucket = some bucket → bucket ≠ "" →
       b64decode payload = .ok data →
       (lambda_handler env s3 client event).2.writes =
         [{ bucket := bucket,
            key := "uploads/" ++ toString s3.timestamp ++ "-" ++ posixBasename filename,
            contentType := _guess_content_type filename }]) := by
  constructor
  · intro env s3 client event req hreq hcond
    have heq : lambda_handler env s3 client event = handler_rest env client req none [] := by
      simp only [lambda_handler, hreq, hcond, Bool.false_eq_true, if_false]
    exact ⟨heq, by rw [heq]; exact handler_rest_writes env client req none []⟩
  · intro env s3 client event req bucket payload filename data hreq hm hpn hf hfn hb hbn hdec
    have hm' : jsonOptTruthy req.media_base64 = true := by
      simp [jsonOptTruthy, hm, Json.truthy, hpn]
    have hf' : jsonOptTruthy req.media_filename = true := by
      simp [jsonOptTruthy, hf, Json.truthy, hfn]
    simp only [lambda_handler, hreq, hm', hf', Bool.and_self, if_true, hb]
    rw [if_neg hbn]
    simp only [hm, hf]
    simp only [upload_media_from_base64, hdec]
    rcases hput : s3.putOutcome with _ | fault
    · simpa using handler_rest_writes env client req
        (some { bucket := bucket,
                key := "uploads/" ++ toString s3.timestamp ++ "-" ++ posixBasename filename,
                presigned_url := s3.presign bucket ("uploads/" ++ toString s3.timestamp ++ "-" ++ posixBasename filename) })
        [{ bucket := bucket,
           key := "uploads/" ++ toString s3.timestamp ++ "-" ++ posixBasename filename,
           contentType := _guess_content_type filename }]
    · simp

/-- C9 witness: a plain envelope composes with no media and writes
nothing; a full media envelope with a healthy store writes exactly the
timestamped object. -/
theorem claim_C9_witness :
    (DiagnosticRequest.from_event evPlain
      = .ok { description := "engine stalls", media_base64 := none, media_filename := none }) ∧
    ((jsonOptTruthy (none : Option Json) && jsonOptTruthy (none : Option Json)) = false) ∧
    (lambda_handler envOk s3Ok (.responses (some "hello")) evPlain
        = handler_rest envOk (.responses (some "hello"))
            { description := "engine stalls", media_base64 := none, media_filename := none }
            none [] ∧
     (lambda_handler envOk s3Ok (.responses (some "hello")) evPlain).2.writes = []) ∧
    ((lambda_handler envOk s3Ok (.responses (some "hello")) evMedia).2.writes
      = [{ bucket := "bucket",
           key := "uploads/" ++ toString s3Ok.timestamp ++ "-" ++ posixBasename "a/b/photo.png",
           contentType := _guess_content_type "a/b/photo.png" }]) := by
  refine ⟨by rfl, by rfl, ?_, ?_⟩
  · exact claim_C9.1 envOk s3Ok (.responses (some "hello")) evPlain
      { description := "engine stalls", media_base64 := none, media_filename := none }
      (by rfl) (by rfl)
  · exact claim_C9.2 envOk s3Ok (.responses (some "hello")) evMedia
      { description := "engine stalls",
        media_base64 := some (Json.str "QUJD"),
        media_filename := some (Json.str "a/b/photo.png") }
      "bucket" "QUJD" "a/b/photo.png" [65, 66, 67]
      (by rfl) (by rfl) (by decide) (by rfl) (by decide) (by rfl) (by decide) (by rfl)

/-- C2: for every filename string and every current Unix timestamp, the
object key computed by the upload is exactly
`uploads/` + timestamp + `-` + basename(filename), with the directory
components of the filename stripped; in particular for
`a/b/photo.png` the key ends in `-photo.png`. The key is read both off
the store write the call performs and off the returned `S3Object`. -/
theorem claim_C2 (s3 : S3Behavior) (bucket payload filename : String)
    (data : List Nat) (h : b64decode payload = .ok data) :
    ((upload_media_from_base64 s3 bucket payload filename).2.map WriteRec.key
        = ["uploads/" ++ toString s3.timestamp ++ "-" ++ posixBasename filename]) ∧
    (∀ ob, (upload_media_from_base64 s3 bucket payload filename).1 = .ok ob →
        ob.key = "uploads/" ++ toString s3.timestamp ++ "-" ++ posixBasename filename) ∧
    posixBasename "a/b/photo.png" = "photo.png" := by
  refine ⟨?_, ?_, by rfl⟩
  · simp only [upload_media_from_base64, h]
    rcases hput : s3.putOutcome with _ | fault <;> simp
  · intro ob hob
    simp only [upload_media_from_base64, h] at hob
    rcases hput : s3.putOutcome with _ | fault <;> rw [hput] at hob
    · simp only [Except.ok.injEq] at hob
      cases hob
      rfl
    · simp at hob

/-- C2 witness: the upload of a valid payload under `a/b/photo.png` at
timestamp 1700000000 writes exactly the key
`uploads/1700000000-photo.png`. -/
theorem claim_C2_witness :
    b64decode "QUJD" = .ok [65, 66, 67] ∧
    ((upload_media_from_base64 s3Ok "bucket" "QUJD" "a/b/photo.png").2.map WriteRec.key
        = ["uploads/" ++ toString s3Ok.timestamp ++ "-" ++ posixBasename "a/b/photo.png"]) ∧
    ((upload_media_from_base64 s3Ok "bucket" "QUJD" "a/b/photo.png").2.map WriteRec.key
        = ["uploads/1700000000-photo.png"]) :=
  ⟨by rfl,
   (claim_C2 s3Ok "bucket" "QUJD" "a/b/photo.png" [65, 66, 67] (by rfl)).1,
   by rfl⟩

/-- C3: normalising the structured model text
`\x7b"summary":"S","potential_causes":["A"],"safety_checks":[],"recommended_actions":["B"]\x7d`
yields exactly that structure, and normalising any text on which the
JSON parse fails yields the text itself as summary with the three list
fields empty. -/
theorem claim_C3 :
    (normalize_response "\x7b\"summary\":\"S\",\"potential_causes\":[\"A\"],\"safety_checks\":[],\"recommended_actions\":[\"B\"]\x7d"
      = .ok { summary := Json.str "S", potential_causes := [Json.str "A"],
              safety_checks := [], recommended_actions := [Json.str "B"] }) ∧
    (∀ s : String, parseFails s = true →
      normalize_response s
        = .ok { summary := Json.str s, potential_causes := [],
                safety_checks := [], recommended_actions := [] }) := by
  refine ⟨by rfl, ?_⟩
  intro s h
  unfold parseFails at h
  unfold normalize_response
  rcases hj : json_loads s with e | v
  · rfl
  · rw [hj] at h
    simp at h

/-- C3 witness: the plain text `T` is not valid JSON and normalises to a
summary-only response. -/
theorem claim_C3_witness :
    parseFails "T" = true ∧
    normalize_response "T"
      = .ok { summary := Json.str "T", potential_causes := [],
              safety_checks := [], recommended_actions := [] } :=
  ⟨by rfl, claim_C3.2 "T" (by rfl)⟩

/-- C6: for every validated request and optional stored media,
`_build_messages` produces exactly two entries in order: the fixed
system instruction, then one user entry whose content begins with the
text segment `User description: ` + description and carries an
image-reference segment with the stored media's retrieval URL exactly
when media was stored. As a Lean function it is deterministic and
effect-free. -/
theorem claim_C6 (request : DiagnosticRequest) (media_object : Option S3Object) :
    _build_messages request media_object =
      [{ role := "system", content := MsgContent.str systemInstruction },
       { role := "user", content := MsgContent.parts
          (Segment.text ("User description: " ++ request.description) ::
           (match media_object with
            | some ob => [Segment.input_image ob.presigned_url]
            | none => [])) }] ∧
    (_build_messages request media_object).length = 2 := by
  cases media_object <;> exact ⟨rfl, rfl⟩

/-- C8 counterexample: a dict segment whose declared type is
`input_image` but which carries a `text` entry contributes that text on
the code's fallback extraction path, while the claim's rule (text-typed
segments only) contributes nothing. -/
theorem claim_C8_counterexample :
    extract_text (ClientKind.chat [ChatContent.list
        [PyPart.dict [("type", Json.str "input_image"), ("text", Json.str "IMG")]]])
      = (.ok "IMG", 1) ∧
    spec_text_typed_concat
        [PyPart.dict [("type", Json.str "input_image"), ("text", Json.str "IMG")]]
      = "" ∧
    ("IMG" : String) ≠ "" :=
  ⟨by rfl, by rfl, by decide⟩

/-- C8 (amended): on the fallback path the extracted text is the
concatenation, in order, of the `text` entry (default empty) of every
dict-shaped segment — the declared segment type is never consulted —
and segments that are not dicts contribute nothing. -/
theorem claim_C8 (parts : List PyPart) (s : String)
    (h : joinParts parts = .ok s) :
    s = concatTexts (parts.filterMap dictText) := by
  induction parts generalizing s with
  | nil =>
    simp only [joinParts] at h
    cases h
    rfl
  | cons p rest ih =>
    cases p with
    | other v =>
      simp only [joinParts] at h
      simpa [dictText] using ih s h
    | dict fields =>
      simp only [joinParts] at h
      rcases ht : pyGetD fields "text" (Json.str "") with _ | b | n | t | xs | fs <;>
        rw [ht] at h
      case str =>
        rcases hr : joinParts rest with e | s1 <;> rw [hr] at h
        · simp [Except.map] at h
        · simp only [Except.map, Except.ok.injEq] at h
          subst h
          simp only [List.filterMap_cons, dictText, ht]
          have := ih s1 hr
          simp only [concatTexts] at this ⊢
          simp [this]
      all_goals simp at h

/-- C8 witness: a two-segment content list (one dict with text, one
non-dict segment) extracts to the dict's text. -/
theorem claim_C8_witness :
    joinParts [PyPart.dict [("text", Json.str "hello ")],
               PyPart.other (Json.str "x"),
               PyPart.dict [("type", Json.str "refusal")]]
      = .ok "hello " ∧
    concatTexts ([PyPart.dict [("text", Json.str "hello ")],
                  PyPart.other (Json.str "x"),
                  PyPart.dict [("type", Json.str "refusal")]].filterMap dictText)
      = "hello " :=
  ⟨by rfl,
   (claim_C8 [PyPart.dict [("text", Json.str "hello ")],
              PyPart.other (Json.str "x"),
              PyPart.dict [("type", Json.str "refusal")]] "hello " (by rfl)).symm.trans rfl⟩

end OnlineMechanic
